import Mathlib

/-!
Verification development for the rsquid terminal database client.

The definitions below are a shallow embedding, translated from the Rust
sources of the repository:

* `src/helpers/query_executor.rs` — query splitting, classification,
  per-statement execution and aggregation (`QueryExecutor::execute`,
  `execute_postgres` / `execute_mysql` / `execute_sqlite`), and the
  per-cell value conversions (`pg_value_to_string`,
  `mysql_value_to_string`, `sqlite_value_to_string`).
* `src/helpers/keyboard.rs` — `QueryPage::handle_input`.
* `src/gui/query_page.rs` — the `QueryPage` state and the `Focus` type.
* `src/gui/gui_helpers/query_page_helpers.rs` — the scroll helpers and
  `toggle_table_expansion`.

Database drivers (sqlx) and the terminal library are external to the
repository; they are modelled as abstract oracles: a `Backend` record for
per-statement driver behaviour, and per-cell records holding the outcome
of each typed `try_get` call a conversion function performs.
-/

namespace RsQuid

/-! ### Statement splitting and classification

From `QueryExecutor::execute` in `src/helpers/query_executor.rs`:
`query.split(';').map(|q| q.trim()).filter(|q| !q.is_empty())`.
Query text is modelled as `List Char`. Whitespace and lowercasing use the
ASCII approximations (the claims only involve ASCII text). -/

/-- Rust `str::split(';')`: the pieces between semicolons, empty pieces
included; on empty input the single empty piece. -/
def splitOnSemicolon : List Char → List (List Char)
  | [] => [[]]
  | c :: cs =>
    if c = ';' then [] :: splitOnSemicolon cs
    else
      match splitOnSemicolon cs with
      | [] => [[c]]
      | p :: ps => (c :: p) :: ps

/-- Rust `str::trim`: drop whitespace from both ends. -/
def trimChars (cs : List Char) : List Char :=
  ((cs.dropWhile Char.isWhitespace).reverse.dropWhile Char.isWhitespace).reverse

/-- The statement list of a submission: split on the separator, trim each
piece, discard empty pieces, preserving order. -/
def splitQuery (text : List Char) : List (List Char) :=
  ((splitOnSemicolon text).map trimChars).filter (fun q => q ≠ [])

/-- Lowercased text of a statement (Rust `to_lowercase`, ASCII case). -/
def lowerChars (cs : List Char) : List Char :=
  cs.map Char.toLower

/-- Classification in `QueryExecutor::execute`: a statement is a
row-producing query when its lowercased text starts with one of the six
keywords; otherwise it is an action (write) statement. -/
def isQueryType (q : List Char) : Bool :=
  let t := lowerChars q
  List.isPrefixOf "select".toList t
    || List.isPrefixOf "show".toList t
    || List.isPrefixOf "describe".toList t
    || List.isPrefixOf "explain".toList t
    || List.isPrefixOf "with".toList t
    || List.isPrefixOf "values".toList t

/-! ### Per-statement execution

`execute_postgres`, `execute_mysql` and `execute_sqlite` share one shape:
an action statement runs through the driver and yields the synthetic
one-column result; a query statement fetches all rows, takes the column
names of the first fetched row as headers, and converts every cell of
every row. (`execute_mysql` re-checks the describe/explain keywords, but
those are already part of the six-keyword classification above, so the
dispatch is identical for all three backends.)

A fetched row is modelled as the list of its columns, each column a pair
of (column name, converted cell text) — mirroring the source loops that
enumerate `row.columns()` once for the header names and once per row for
the cell values. The driver itself is the `Backend` oracle. -/

/-- One fetched row: (column name, converted cell text) per column. -/
def RawRow := List (String × String)

/-- Driver oracle for one backend: the outcome of running an action
statement (affected-row count or error) and of fetching all rows of a
query statement. -/
structure Backend where
  execWrite : List Char → Except String Nat
  fetchAll : List Char → Except String (List RawRow)

/-- Per-statement execution, the common body of `execute_postgres`,
`execute_mysql` and `execute_sqlite`. -/
def executeStmt (b : Backend) (q : List Char) (is_query : Bool) :
    Except String (List String × List (List String)) :=
  if !is_query then
    match b.execWrite q with
    | .error e => .error e
    | .ok n => .ok (["Result"], [[toString n ++ " row(s) affected"]])
  else
    match b.fetchAll q with
    | .error e => .error e
    | .ok rows =>
      match rows with
      | [] => .ok ([], [])
      | r0 :: _ => .ok (r0.map Prod.fst, rows.map (fun r => r.map Prod.snd))

/-- Outcome of one statement as `execute` runs it (classification applied). -/
def stmtResult (b : Backend) (q : List Char) :
    Except String (List String × List (List String)) :=
  executeStmt b q (isQueryType q)

/-- The aggregation loop of `QueryExecutor::execute`: `i` is the statement
index, `allH` / `allR` the accumulated headers and rows. Before a later
statement with prior output rows, one separator row of `"---"` cells is
pushed, its width the CURRENT statement header count (minimum one); the
first non-empty header set is adopted. -/
def executeLoop (b : Backend) :
    List (List Char) → Nat → List String → List (List String) →
    Except String (List String × List (List String))
  | [], _, allH, allR => .ok (allH, allR)
  | q :: qs, i, allH, allR =>
    match stmtResult b q with
    | .error e => .error e
    | .ok (headers, rows) =>
      let allR' := if i > 0 && !allR.isEmpty
        then allR ++ [List.replicate (max headers.length 1) "---"]
        else allR
      let allH' := if allH.isEmpty then headers else allH
      executeLoop b qs (i + 1) allH' (allR' ++ rows)

/-- `QueryExecutor::execute`: split the submission, return the empty grid
when no statement remains, otherwise run the aggregation loop. -/
def execute (b : Backend) (text : List Char) :
    Except String (List String × List (List String)) :=
  let queries := splitQuery text
  if queries.isEmpty then .ok ([], []) else executeLoop b queries 0 [] []

/-! ### Per-cell value conversion

The conversion functions observe a database cell only through driver
calls: `try_get_raw` (success with a null flag, or failure) and the typed
`try_get::<T>` calls, each succeeding or failing. A cell is therefore
embedded as the record of those call outcomes. Values whose textual
rendering is pure (bool, i64, u64) are kept as values and rendered as in
Rust; values whose rendering lives in external crates (floats, dates,
json, uuid, decimals) are carried as their already-rendered text. The
byte payload of `try_get::<Vec<u8>>` is kept as the raw byte list; the
`String::from_utf8_lossy` rendering of those bytes is an abstract
environment function passed to the conversion. -/

/-- Rust `bool` Display. -/
def boolText (b : Bool) : String := if b then "true" else "false"

/-- The `try_get` outcomes `mysql_value_to_string` can perform on one
MySQL cell (from `src/helpers/query_executor.rs`). `raw_is_null` is the
`try_get_raw` outcome: `none` when the raw fetch itself fails, otherwise
`some` of the null flag. -/
structure MySqlCell where
  raw_is_null : Option Bool
  getBool : Option Bool
  getI64 : Option Int
  getU64 : Option Nat
  getF64Text : Option String
  getDateTimeText : Option String
  getDateText : Option String
  getJsonText : Option String
  getString : Option String
  getBytes : Option (List Nat)

/-- `QueryExecutor::mysql_value_to_string`. `lossy` is
`String::from_utf8_lossy`. -/
def mysql_value_to_string (lossy : List Nat → String) (cell : MySqlCell)
    (type_name : String) : String :=
  if cell.raw_is_null.getD true then "NULL"
  else if type_name = "BOOLEAN" then
    (cell.getBool.map boolText).getD "err"
  else if type_name = "TINYINT" ∨ type_name = "SMALLINT" ∨ type_name = "INT"
      ∨ type_name = "BIGINT" then
    (cell.getI64.map toString).getD "err"
  else if type_name = "TINYINT UNSIGNED" ∨ type_name = "SMALLINT UNSIGNED"
      ∨ type_name = "INT UNSIGNED" ∨ type_name = "BIGINT UNSIGNED" then
    (cell.getU64.map toString).getD "err"
  else if type_name = "FLOAT" ∨ type_name = "DOUBLE" ∨ type_name = "DECIMAL" then
    cell.getF64Text.getD "err"
  else if type_name = "DATETIME" ∨ type_name = "TIMESTAMP" then
    cell.getDateTimeText.getD "err"
  else if type_name = "DATE" then
    cell.getDateText.getD "err"
  else if type_name = "JSON" then
    cell.getJsonText.getD "err"
  else
    -- the "VARCHAR"|"CHAR"|"TEXT"|"VAR_STRING"|"BLOB"|"BINARY" arm and the
    -- wildcard arm have the same body: try String, then bytes (lossy
    -- decode), then the type-name tag
    match cell.getString with
    | some s => s
    | none =>
      match cell.getBytes with
      | some bs => lossy bs
      | none => "<" ++ type_name ++ ">"

/-- Membership of a type name in the explicit binary/text arm of
`mysql_value_to_string`. -/
def mysqlTextOrBinaryType (type_name : String) : Prop :=
  type_name = "VARCHAR" ∨ type_name = "CHAR" ∨ type_name = "TEXT"
    ∨ type_name = "VAR_STRING" ∨ type_name = "BLOB" ∨ type_name = "BINARY"

/-- The `try_get` outcomes `pg_value_to_string` can perform on one
Postgres cell. -/
structure PgCell where
  raw_is_null : Option Bool
  getBool : Option Bool
  getI64 : Option Int
  getF64Text : Option String
  getString : Option String
  getTimestampText : Option String
  getTimestamptzText : Option String
  getDateText : Option String
  getUuidText : Option String
  getJsonText : Option String

/-- `QueryExecutor::pg_value_to_string`. -/
def pg_value_to_string (cell : PgCell) (type_name : String) : String :=
  if cell.raw_is_null.getD true then "NULL"
  else if type_name = "BOOL" then
    (cell.getBool.map boolText).getD "err"
  else if type_name = "INT2" ∨ type_name = "INT4" ∨ type_name = "INT8" then
    (cell.getI64.map toString).getD "err"
  else if type_name = "FLOAT4" ∨ type_name = "FLOAT8" ∨ type_name = "NUMERIC" then
    cell.getF64Text.getD "err"
  else if type_name = "TEXT" ∨ type_name = "VARCHAR" ∨ type_name = "CHAR"
      ∨ type_name = "NAME" then
    cell.getString.getD ""
  else if type_name = "TIMESTAMP" then
    cell.getTimestampText.getD "err"
  else if type_name = "TIMESTAMPTZ" then
    cell.getTimestamptzText.getD "err"
  else if type_name = "DATE" then
    cell.getDateText.getD "err"
  else if type_name = "UUID" then
    cell.getUuidText.getD "err"
  else if type_name = "JSON" ∨ type_name = "JSONB" then
    cell.getJsonText.getD "err"
  else
    match cell.getString with
    | some s => s
    | none => "<" ++ type_name ++ ">"

/-- The `try_get` outcomes `sqlite_value_to_string` can perform on one
SQLite cell. -/
structure SqliteCell where
  raw_is_null : Option Bool
  getBool : Option Bool
  getI64 : Option Int
  getF64Text : Option String
  getString : Option String
  getDateTimeText : Option String

/-- `QueryExecutor::sqlite_value_to_string`. -/
def sqlite_value_to_string (cell : SqliteCell) (type_name : String) : String :=
  if cell.raw_is_null.getD true then "NULL"
  else if type_name = "BOOLEAN" then
    (cell.getBool.map boolText).getD "err"
  else if type_name = "INTEGER" then
    (cell.getI64.map toString).getD "err"
  else if type_name = "REAL" then
    cell.getF64Text.getD "err"
  else if type_name = "TEXT" then
    cell.getString.getD ""
  else if type_name = "DATETIME" then
    match cell.getDateTimeText with
    | some t => t
    | none => cell.getString.getD "err"
  else
    match cell.getString with
    | some s => s
    | none => "<" ++ type_name ++ ">"

/-! ### Query page state (from `src/gui/query_page.rs`)

Fields of `QueryPage` not touched by the modelled operations (connection
and executor handles, error text, overlay fields, the rendering scroll
offset) are omitted. `table_selected` is `table_state.selected()` and
`explorer_selected` is `explorer_state.selected()` of the ratatui states;
selecting is the only operation the source performs on them. -/

/-- `Focus` in `src/gui/query_page.rs`. -/
inductive Focus where
  | query
  | results
  | explorer
deriving DecidableEq, Repr

/-- `TableInfo` in `src/gui/query_page.rs`: one schema-explorer node. -/
structure TableInfo where
  name : List Char
  fields : Option (List String)
  expanded : Bool
deriving DecidableEq, Repr

/-- The navigation-relevant state of `QueryPage`. -/
structure QueryPageState where
  query : List Char
  cursor_position : Nat
  results : List (List String)
  headers : List String
  focus : Focus
  table_selected : Option Nat
  horizontal_scroll : Nat
  max_results : Nat
  tables : List TableInfo
  explorer_selected : Option Nat
deriving DecidableEq, Repr

/-- `QueryPage::new()`: focus on the query editor, no results, no limit,
explorer selection at 0. -/
def initialQueryPage : QueryPageState :=
  { query := [], cursor_position := 0, results := [], headers := [],
    focus := Focus.query, table_selected := none, horizontal_scroll := 0,
    max_results := 0, tables := [], explorer_selected := some 0 }

/-! ### Result scrolling (from `query_page_helpers.rs`) -/

/-- The `max_len` computation shared by `scroll_down` and
`scroll_page_down`: the visible row count, `min(max_results, totalRows)`
when a limit is set, `totalRows` otherwise. -/
def max_len (s : QueryPageState) : Nat :=
  if s.max_results > 0 then min s.max_results s.results.length
  else s.results.length

/-- `QueryPage::scroll_up`. -/
def scroll_up (s : QueryPageState) : QueryPageState :=
  let i := match s.table_selected with
    | some i => if i > 0 then i - 1 else 0
    | none => 0
  { s with table_selected := some i }

/-- `QueryPage::scroll_down`. -/
def scroll_down (s : QueryPageState) : QueryPageState :=
  let m := max_len s
  let i := match s.table_selected with
    | some i => if i < m - 1 then i + 1 else i
    | none => 0
  { s with table_selected := some i }

/-- `QueryPage::scroll_page_up`. -/
def scroll_page_up (s : QueryPageState) : QueryPageState :=
  let i := match s.table_selected with
    | some i => i - 10
    | none => 0
  { s with table_selected := some i }

/-- `QueryPage::scroll_page_down`. -/
def scroll_page_down (s : QueryPageState) : QueryPageState :=
  let m := max_len s
  let i := match s.table_selected with
    | some i => min (i + 10) (m - 1)
    | none => 0
  { s with table_selected := some i }

/-! ### Key handling (from `src/helpers/keyboard.rs`)

Only key-press events reach the body of `handle_input`; keys whose arm
does not change navigation state (Esc, which returns the Back action) or
whose arm calls the executor (Ctrl+E) are outside this step function, as
are control-modified characters (the plain-character arm requires the
CONTROL modifier to be absent). The source `Tab` arm matches only the
`Query` and `Results` focus variants; `explorer` is left unchanged here
and is unused by the theorems below. -/

/-- The modelled keys. `char c` is an unmodified character key. -/
inductive Key where
  | tab
  | up
  | down
  | left
  | right
  | pageUp
  | pageDown
  | char (c : Char)
  | backspace
  | delete
  | enter
deriving DecidableEq, Repr

/-- List insertion at a position (Rust `Vec::insert`; the source clamps
the position to the length first, so the position is always in range). -/
def insertAt (n : Nat) (a : Char) : List Char → List Char
  | [] => [a]
  | c :: cs => match n with
    | 0 => a :: c :: cs
    | m + 1 => c :: insertAt m a cs

/-- `QueryPage::handle_input` from `src/helpers/keyboard.rs`, restricted
to its state effect. Arm order follows the source `match`. -/
def handle_input (s : QueryPageState) (k : Key) : QueryPageState :=
  match k with
  | .tab =>
    { s with focus := match s.focus with
        | .query => .results
        | .results => .query
        | .explorer => .explorer }
  | .up => if s.focus = .results then scroll_up s else s
  | .down => if s.focus = .results then scroll_down s else s
  | .left =>
    if s.focus = .results then
      if s.horizontal_scroll > 0 then
        { s with horizontal_scroll := s.horizontal_scroll - 1 }
      else s
    else if s.focus = .query then
      if s.cursor_position > 0 then
        { s with cursor_position := s.cursor_position - 1 }
      else s
    else s
  | .right =>
    if s.focus = .results then
      if s.horizontal_scroll + 1 < s.headers.length then
        { s with horizontal_scroll := s.horizontal_scroll + 1 }
      else s
    else if s.focus = .query then
      if s.cursor_position < s.query.length then
        { s with cursor_position := s.cursor_position + 1 }
      else s
    else s
  | .pageUp =>
    if s.focus = .results then scroll_page_up s
    else if s.focus = .query then { s with cursor_position := 0 }
    else s
  | .pageDown =>
    if s.focus = .results then scroll_page_down s
    else if s.focus = .query then { s with cursor_position := s.query.length }
    else s
  | .char c =>
    if (c = 't' ∨ c = 'T') ∧ s.focus = .results then
      { s with table_selected := some 0 }
    else if (c = 'b' ∨ c = 'B') ∧ s.focus = .results then
      if !s.results.isEmpty then
        { s with table_selected := some (s.results.length - 1) }
      else s
    else if s.focus = .query then
      let pos := min s.cursor_position s.query.length
      { s with query := insertAt pos c s.query,
               cursor_position := s.cursor_position + 1 }
    else s
  | .backspace =>
    if s.focus = .query then
      if s.cursor_position > 0 then
        let pos := min s.cursor_position s.query.length
        if pos > 0 then
          { s with query := s.query.eraseIdx (pos - 1),
                   cursor_position := s.cursor_position - 1 }
        else s
      else s
    else s
  | .delete =>
    if s.focus = .query then
      let pos := min s.cursor_position s.query.length
      if pos < s.query.length then { s with query := s.query.eraseIdx pos }
      else s
    else s
  | .enter =>
    if s.focus = .query then
      let pos := min s.cursor_position s.query.length
      { s with query := insertAt pos '\n' s.query,
               cursor_position := s.cursor_position + 1 }
    else s

/-! ### Schema explorer (from `query_page_helpers.rs`) -/

/-- The flat span of one node in the explorer list: one row for the node
itself, plus one per loaded column when expanded. -/
def span (t : TableInfo) : Nat :=
  1 + (if t.expanded then (t.fields.map List.length).getD 0 else 0)

/-- Number of flat rows of the whole explorer list (the computation of
`explorer_scroll_down`). -/
def flattenedCount (tables : List TableInfo) : Nat :=
  (tables.map span).sum

/-- Flat position of the header row of node `i`: the spans of the nodes
before it. -/
def headerPos (tables : List TableInfo) (i : Nat) : Nat :=
  ((tables.take i).map span).sum

/-- The resolution loop of `toggle_table_expansion`: walk the nodes
keeping a running flat position `actual`; the node whose header row
equals the selection is found; the running total is compared BEFORE the
span of the node is added. Returns the node index. -/
def resolveWalkAux : List TableInfo → Nat → Nat → Nat → Option Nat
  | [], _, _, _ => none
  | t :: ts, sel, actual, i =>
    if actual = sel then some i
    else resolveWalkAux ts sel (actual + span t) (i + 1)

/-- Resolution of a flat selection index to a node index. -/
def resolveWalk (tables : List TableInfo) (sel : Nat) : Option Nat :=
  resolveWalkAux tables sel 0 0

/-- `QueryPage::toggle_table_expansion`, with the column-introspection
query abstracted as the oracle `intro` (`none` models a failed
introspection, whose error the source swallows; expansion is still set in
that case, with the columns left unloaded). -/
def toggle_table_expansion (intro : List Char → Option (List String))
    (s : QueryPageState) : QueryPageState :=
  match s.explorer_selected with
  | none => s
  | some sel =>
    match resolveWalk s.tables sel with
    | none => s
    | some idx =>
      match s.tables.get? idx with
      | none => s
      | some t =>
        if t.expanded then
          { s with tables := s.tables.set idx { t with expanded := false } }
        else
          let t' := if t.fields.isNone then
              match intro t.name with
              | some fs => { t with fields := some fs }
              | none => t
            else t
          { s with tables := s.tables.set idx { t' with expanded := true } }

/-! ### Derived helpers and concrete instances used by the theorems -/

/-- Headers of one statement under a backend (meaningful when the
statement succeeds). -/
def stmtHeaders (b : Backend) (q : List Char) : List String :=
  match stmtResult b q with
  | .ok (h, _) => h
  | .error _ => []

/-- First non-empty header list, or the empty list: the header-adoption
rule of the aggregation loop. -/
def firstNonEmptyHeaders : List (List String) → List String
  | [] => []
  | h :: t => if h.isEmpty then firstNonEmptyHeaders t else h

/-- A vertical-cursor move while focus is on the results grid. -/
inductive ScrollMove where
  | one_up
  | one_down
  | page_up
  | page_down
deriving DecidableEq, Repr

/-- Dispatch of one result-cursor move to the scroll helpers. -/
def applyScroll (s : QueryPageState) : ScrollMove → QueryPageState
  | .one_up => scroll_up s
  | .one_down => scroll_down s
  | .page_up => scroll_page_up s
  | .page_down => scroll_page_down s

/-- A sequence of result-cursor moves. -/
def applyScrolls (s : QueryPageState) (ms : List ScrollMove) : QueryPageState :=
  ms.foldl applyScroll s

/-- Backend whose action statements affect 3 rows and whose query
statements all fail: statement two of the C1 demo submission errors. -/
def failingReadBackend : Backend :=
  { execWrite := fun _ => .ok 3,
    fetchAll := fun _ => .error "boom" }

/-- Backend whose action statements affect 3 rows and whose query
statements return one two-column row. -/
def twoColumnBackend : Backend :=
  { execWrite := fun _ => .ok 3,
    fetchAll := fun _ => .ok [[("a", "1"), ("b", "2")]] }

/-- Backend for the scenario of claim C4: updates affect 3 rows, and
`SELECT 1` yields the single cell `1`. -/
def scenarioBackend : Backend :=
  { execWrite := fun _ => .ok 3,
    fetchAll := fun q =>
      if q = "SELECT 1".toList then .ok [[("?column?", "1")]] else .ok [] }

/-- Backend whose query statements fail before fetching anything (used to
instantiate single-statement write submissions). -/
def writeOnlyBackend : Backend :=
  { execWrite := fun _ => .ok 3,
    fetchAll := fun _ => .error "nope" }

/-- A two-statement submission: a write, then a read. -/
def updateThenSelect : List Char := "UPDATE t SET x=1; SELECT 1".toList

/-- A two-statement submission: a two-column read, then a write. -/
def selectThenUpdate : List Char := "SELECT a, b FROM t; UPDATE t SET x=1".toList

/-- A two-statement submission: a write, then a two-column read. -/
def updateThenSelectTwo : List Char := "UPDATE t SET x=1; SELECT a, b FROM t".toList

/-- A single-statement write submission. -/
def singleUpdate : List Char := "UPDATE t SET x=1".toList

/-- A results-focused page with five result rows and a row cap of 2. -/
def cappedResultsPage : QueryPageState :=
  { initialQueryPage with
      focus := Focus.results,
      headers := ["h"],
      results := [["r1"], ["r2"], ["r3"], ["r4"], ["r5"]],
      max_results := 2,
      table_selected := some 0 }

/-- A results-focused page with five result rows and no row cap. -/
def uncappedResultsPage : QueryPageState :=
  { initialQueryPage with
      focus := Focus.results,
      headers := ["h"],
      results := [["r1"], ["r2"], ["r3"], ["r4"], ["r5"]],
      max_results := 0,
      table_selected := some 0 }

/-- One expanded schema node with two loaded columns. -/
def expandedNodeTables : List TableInfo :=
  [{ name := "t".toList, fields := some ["c1", "c2"], expanded := true }]

/-- A page whose explorer selection sits on the first COLUMN row (flat
index 1) of the expanded node. -/
def columnRowSelectedPage : QueryPageState :=
  { initialQueryPage with
      tables := expandedNodeTables,
      explorer_selected := some 1 }

/-- The 40-character ASCII text of forty `a` bytes. -/
def fortyAs : String := String.mk (List.replicate 40 'a')

/-- A non-NULL MySQL BLOB cell holding forty `a` bytes (0x61); the driver
decodes such a payload as a `String` successfully, so `try_get::<String>`
yields the 40-character text. -/
def fortyByteBlobCell : MySqlCell :=
  { raw_is_null := some false,
    getBool := none, getI64 := none, getU64 := none,
    getF64Text := none, getDateTimeText := none, getDateText := none,
    getJsonText := none,
    getString := some fortyAs,
    getBytes := some (List.replicate 40 97) }

/-! ## Theorems -/

/-- C10: in every backend per-cell conversion, a failed raw fetch
(`try_get_raw` returning an error, modelled as `raw_is_null = none`)
yields the text `NULL`, exactly as a genuine SQL NULL does — the output
`NULL` does not distinguish the two cases. -/
theorem c10_null_on_failed_raw (lossy : List Nat → String) (mc : MySqlCell)
    (pc : PgCell) (sc : SqliteCell) (tn : String) :
    mysql_value_to_string lossy { mc with raw_is_null := none } tn = "NULL" ∧
    pg_value_to_string { pc with raw_is_null := none } tn = "NULL" ∧
    sqlite_value_to_string { sc with raw_is_null := none } tn = "NULL" ∧
    mysql_value_to_string lossy { mc with raw_is_null := some true } tn = "NULL" ∧
    pg_value_to_string { pc with raw_is_null := some true } tn = "NULL" ∧
    sqlite_value_to_string { sc with raw_is_null := some true } tn = "NULL" :=
  ⟨rfl, rfl, rfl, rfl, rfl, rfl⟩

/-- C6 counterexample: one `Tab` key from the initial page state (a
reachable input sequence) puts the focus on `Results` while the result
grid is empty, so focus `Results` does NOT imply that a result grid
exists. -/
theorem c6_counterexample :
    (handle_input initialQueryPage Key.tab).focus = Focus.results ∧
    (handle_input initialQueryPage Key.tab).results = [] := by
  decide

/-- C6 amended: the cycle key toggles `Query ⇄ Results` unconditionally —
from `Query` it always focuses `Results`, with the results list (and
hence its emptiness) untouched; no guard requires a result grid to
exist. -/
theorem c6_tab_unconditional (s : QueryPageState) (h : s.focus = Focus.query) :
    (handle_input s Key.tab).focus = Focus.results ∧
    (handle_input s Key.tab).results = s.results := by
  simp [handle_input, h]

/-- C6 witness: the amended theorem applied to the initial page state. -/
theorem c6_tab_unconditional_witness :
    initialQueryPage.focus = Focus.query ∧
    ((handle_input initialQueryPage Key.tab).focus = Focus.results ∧
      (handle_input initialQueryPage Key.tab).results = initialQueryPage.results) :=
  ⟨rfl, c6_tab_unconditional initialQueryPage rfl⟩

/-- C8 counterexample: on a results-focused page with five rows and a row
cap of 2 (`visibleRowCount = min 2 5 = 2`), the jump-to-bottom key sets
the vertical cursor to 4 (`totalRows - 1`), not to
`visibleRowCount - 1 = 1` as the claim states. -/
theorem c8_counterexample :
    max_len cappedResultsPage = 2 ∧
    (handle_input cappedResultsPage (Key.char 'b')).table_selected = some 4 ∧
    some 4 ≠ some (max_len cappedResultsPage - 1) := by
  decide

/-- C8 amended: while focus is `Results`, jump-to-top sets the vertical
cursor to 0 and jump-to-bottom (on a non-empty grid) sets it to
`totalRows - 1` — the TOTAL row count, ignoring any row cap; it equals
`visibleRowCount - 1` only when no cap is set or the cap is at least the
row count. -/
theorem c8_jump_keys (s : QueryPageState) (h : s.focus = Focus.results) :
    (handle_input s (Key.char 't')).table_selected = some 0 ∧
    (s.results ≠ [] →
      (handle_input s (Key.char 'b')).table_selected = some (s.results.length - 1)) := by
  refine ⟨?_, fun hne => ?_⟩
  · simp [handle_input, h]
  · simp [handle_input, h, hne]

/-- C8 witness: the amended theorem applied to the capped five-row page. -/
theorem c8_jump_keys_witness :
    cappedResultsPage.focus = Focus.results ∧
    (handle_input cappedResultsPage (Key.char 't')).table_selected = some 0 ∧
    (handle_input cappedResultsPage (Key.char 'b')).table_selected =
      some (cappedResultsPage.results.length - 1) :=
  ⟨rfl, (c8_jump_keys cappedResultsPage rfl).1,
    (c8_jump_keys cappedResultsPage rfl).2 (by decide)⟩

/-- C3 counterexample: a non-NULL MySQL BLOB cell with a 40-byte payload
of `a` bytes converts to the 40-character text (the driver string decode
succeeds and is returned), not to `<BINARY 40 bytes>` — and no branch of
the conversion produces hexadecimal text or a byte-count tag. -/
theorem c3_counterexample :
    mysql_value_to_string (fun _ => "") fortyByteBlobCell "BLOB" = fortyAs ∧
    fortyByteBlobCell.getBytes.map List.length = some 40 ∧
    fortyAs ≠ "<BINARY 40 bytes>" := by
  decide

/-- C3 amended: for a non-NULL cell of a binary/text MySQL type
(`BLOB`/`BINARY`), the conversion returns the driver string decode when
`try_get::<String>` succeeds, otherwise the lossy UTF-8 rendering of the
raw bytes when `try_get::<Vec<u8>>` succeeds, otherwise the tag
`<typename>`; there is no payload-size rule, no hexadecimal rendering and
no `<BINARY n bytes>` tag. -/
theorem c3_binary_conversion (lossy : List Nat → String) (cell : MySqlCell)
    (tn : String) (hraw : cell.raw_is_null = some false)
    (htn : tn = "BLOB" ∨ tn = "BINARY") :
    mysql_value_to_string lossy cell tn =
      (match cell.getString with
       | some s => s
       | none =>
         match cell.getBytes with
         | some bs => lossy bs
         | none => "<" ++ tn ++ ">") := by
  rcases htn with rfl | rfl <;> simp [mysql_value_to_string, hraw]

/-- C3 witness: the amended theorem applied to the 40-byte BLOB cell. -/
theorem c3_binary_conversion_witness :
    fortyByteBlobCell.raw_is_null = some false ∧
    mysql_value_to_string (fun _ => "") fortyByteBlobCell "BLOB" = fortyAs :=
  ⟨rfl, c3_binary_conversion (fun _ => "") fortyByteBlobCell "BLOB" rfl (Or.inl rfl)⟩

/-- One result-cursor move leaves the results list and the row cap (and
hence the visible row count) unchanged. -/
theorem applyScroll_preserves_max_len (s : QueryPageState) (m : ScrollMove) :
    max_len (applyScroll s m) = max_len s := by
  cases m <;>
    simp [applyScroll, scroll_up, scroll_down, scroll_page_up,
      scroll_page_down, max_len]

/-- One result-cursor move keeps the cursor at most `visibleRowCount - 1`
(saturating at zero), provided it was in range before. -/
theorem applyScroll_preserves_bound (s : QueryPageState) (m : ScrollMove)
    (hinv : ∀ i, s.table_selected = some i → i ≤ max_len s - 1) :
    ∀ i, (applyScroll s m).table_selected = some i → i ≤ max_len s - 1 := by
  intro i hi
  cases m <;>
    simp only [applyScroll, scroll_up, scroll_down, scroll_page_up,
      scroll_page_down] at hi
  all_goals
    rcases hsel : s.table_selected with _ | j <;> simp [hsel] at hi
  case one_up.none => omega
  case one_up.some =>
    have := hinv j hsel
    split at hi <;> omega
  case one_down.none => omega
  case one_down.some =>
    have := hinv j hsel
    split at hi <;> omega
  case page_up.none => omega
  case page_up.some =>
    have := hinv j hsel
    omega
  case page_down.none => omega
  case page_down.some =>
    have := hinv j hsel
    omega

/-- C7: for every arbitrary sequence of one-row and 10-row vertical moves
on the results grid, the vertical cursor stays at most
`visibleRowCount - 1` (with `visibleRowCount = min(rowCap, totalRows)`
when a cap is set and `totalRows` otherwise), and — cursors being natural
numbers, as in the source where all moves saturate at zero — never goes
below 0, provided it started in range. -/
theorem c7_cursor_bounds (s : QueryPageState) (ms : List ScrollMove)
    (hinv : ∀ i, s.table_selected = some i → i ≤ max_len s - 1) :
    ∀ i, (applyScrolls s ms).table_selected = some i → i ≤ max_len s - 1 := by
  induction ms generalizing s with
  | nil => exact hinv
  | cons m ms ih =>
    intro i hi
    have h1 := applyScroll_preserves_bound s m hinv
    have h2 := applyScroll_preserves_max_len s m
    have := ih (applyScroll s m) (by
      intro j hj
      have := h1 j hj
      omega)
    have hres := this i hi
    omega

/-- C7 witness: three one-row downs and one up on an uncapped five-row
grid starting at row 0 end on row 2, within the bound 4. -/
theorem c7_cursor_bounds_witness :
    (applyScrolls uncappedResultsPage
        [ScrollMove.one_down, ScrollMove.one_down, ScrollMove.one_down,
          ScrollMove.one_up]).table_selected = some 2 ∧
    2 ≤ max_len uncappedResultsPage - 1 :=
  ⟨by decide,
    c7_cursor_bounds uncappedResultsPage
      [ScrollMove.one_down, ScrollMove.one_down, ScrollMove.one_down,
        ScrollMove.one_up]
      (by
        intro i hi
        have : i = 0 := by
          have h0 : uncappedResultsPage.table_selected = some 0 := by decide
          rw [h0] at hi
          exact (Option.some.injEq _ _ ▸ hi).symm
        subst this
        decide)
      2 (by decide)⟩

/-- Flat position of node zero. -/
theorem headerPos_zero (tables : List TableInfo) : headerPos tables 0 = 0 := rfl

/-- Flat position of a successor node on a cons list. -/
theorem headerPos_succ_cons (t : TableInfo) (ts : List TableInfo) (j : Nat) :
    headerPos (t :: ts) (j + 1) = span t + headerPos ts j := by
  simp [headerPos]

/-- The resolution walk finds a node whose header row is requested. -/
theorem resolveWalkAux_at_header (ts : List TableInfo) :
    ∀ (j a i0 : Nat), j < ts.length →
      resolveWalkAux ts (a + headerPos ts j) a i0 = some (i0 + j) := by
  induction ts with
  | nil => intro j _ _ h; exact absurd h (by simp)
  | cons t ts ih =>
    intro j a i0 hj
    cases j with
    | zero => simp [resolveWalkAux, headerPos_zero]
    | succ m =>
      have hm : m < ts.length := by simpa using hj
      have hspan : 1 ≤ span t := Nat.le_add_right 1 _
      have hne : a ≠ a + headerPos (t :: ts) (m + 1) := by
        rw [headerPos_succ_cons]
        omega
      rw [resolveWalkAux, if_neg hne]
      have := ih m (a + span t) (i0 + 1) hm
      rw [headerPos_succ_cons]
      rw [show a + (span t + headerPos ts m) = a + span t + headerPos ts m by omega]
      rw [this]
      simp [Nat.add_assoc, Nat.add_comm 1 m]

/-- The resolution walk never finds a node when the requested index lies
strictly below the running total. -/
theorem resolveWalkAux_lt_none (ts : List TableInfo) :
    ∀ (sel a i0 : Nat), sel < a → resolveWalkAux ts sel a i0 = none := by
  induction ts with
  | nil => intro sel a i0 _; rfl
  | cons t ts ih =>
    intro sel a i0 hlt
    have hne : a ≠ sel := by omega
    rw [resolveWalkAux, if_neg hne]
    exact ih sel (a + span t) (i0 + 1) (by
      have : 1 ≤ span t := Nat.le_add_right 1 _
      omega)

/-- The resolution walk finds nothing when the requested index falls
strictly inside the span of a node (on one of its column rows). -/
theorem resolveWalkAux_inside_none (ts : List TableInfo) :
    ∀ (i sel a i0 : Nat) (t : TableInfo), ts.get? i = some t →
      a + headerPos ts i < sel → sel < a + headerPos ts i + span t →
      resolveWalkAux ts sel a i0 = none := by
  induction ts with
  | nil => intro i sel a i0 t hget; exact absurd hget (by simp)
  | cons t0 ts ih =>
    intro i sel a i0 t hget hlo hhi
    cases i with
    | zero =>
      have ht : t0 = t := by simpa using hget
      subst ht
      rw [headerPos_zero] at hlo hhi
      have hne : a ≠ sel := by omega
      rw [resolveWalkAux, if_neg hne]
      exact resolveWalkAux_lt_none ts sel (a + span t0) (i0 + 1) (by omega)
    | succ m =>
      have hget2 : ts.get? m = some t := by simpa using hget
      rw [headerPos_succ_cons] at hlo hhi
      have hne : a ≠ sel := by omega
      rw [resolveWalkAux, if_neg hne]
      exact ih m sel (a + span t0) (i0 + 1) t hget2 (by omega) (by omega)

/-- Updating a list keeps the updated element retrievable at its index. -/
theorem listSetGetSome {α : Type} (l : List α) :
    ∀ (i : Nat) (a b : α), l.get? i = some b → (l.set i a).get? i = some a := by
  induction l with
  | nil => intro i a b h; exact absurd h (by simp)
  | cons x xs ih =>
    intro i a b h
    cases i with
    | zero => rfl
    | succ m => exact ih m a b (by simpa using h)

/-- C9 counterexample: one expanded node with two loaded columns spans
flat rows 0..2; selection index 1 (a COLUMN row, in bounds) resolves to
no node, and the activation action is a no-op: the node is NOT toggled. -/
theorem c9_counterexample :
    1 < flattenedCount expandedNodeTables ∧
    resolveWalk expandedNodeTables 1 = none ∧
    toggle_table_expansion (fun _ => none) columnRowSelectedPage =
      columnRowSelectedPage ∧
    (columnRowSelectedPage.tables.get? 0).map TableInfo.expanded = some true := by
  decide

/-- C9 amended: the resolution walk compares its running total with the
selection index BEFORE adding a node span (1 for a collapsed node,
1 + columnCount for an expanded one), so it resolves exactly the indices
that are a node header row — there the activation toggles that node
expansion flag — while an index strictly inside an expanded node span
(one of its column rows) resolves to no node and the activation leaves
the page unchanged. -/
theorem c9_activation_resolution (intro : List Char → Option (List String))
    (s : QueryPageState) (i : Nat) (t : TableInfo)
    (hget : s.tables.get? i = some t) :
    (resolveWalk s.tables (headerPos s.tables i) = some i) ∧
    (s.explorer_selected = some (headerPos s.tables i) →
      ∃ t2, (toggle_table_expansion intro s).tables.get? i = some t2 ∧
        t2.expanded = !t.expanded) ∧
    (∀ sel, headerPos s.tables i < sel → sel < headerPos s.tables i + span t →
      resolveWalk s.tables sel = none ∧
      (s.explorer_selected = some sel → toggle_table_expansion intro s = s)) := by
  have hlen : i < s.tables.length := List.get?_eq_some.mp hget |>.1
  have hres : resolveWalk s.tables (headerPos s.tables i) = some i := by
    have := resolveWalkAux_at_header s.tables i 0 0 hlen
    simpa [resolveWalk] using this
  refine ⟨hres, fun hsel => ?_, fun sel hlo hhi => ?_⟩
  · simp only [toggle_table_expansion, hsel, hres, hget]
    by_cases hexp : t.expanded = true
    · rw [if_pos hexp]
      refine ⟨{ t with expanded := false }, ?_, by simp [hexp]⟩
      exact listSetGetSome s.tables i _ t hget
    · have hexp2 : t.expanded = false := by
        cases hx : t.expanded
        · rfl
        · exact absurd hx hexp
      rw [if_neg hexp]
      refine ⟨_, listSetGetSome s.tables i _ t hget, by simp [hexp2]⟩
  · have hnone : resolveWalk s.tables sel = none := by
      have := resolveWalkAux_inside_none s.tables i sel 0 0 t hget
        (by simpa using hlo) (by simpa using hhi)
      simpa [resolveWalk] using this
    refine ⟨hnone, fun hsel => ?_⟩
    simp only [toggle_table_expansion, hsel, hnone]

/-- C9 witness: the amended theorem applied to the page whose expanded
node is selected at its header row (flat index 0) and probed at its
column row (flat index 1). -/
theorem c9_activation_resolution_witness :
    resolveWalk columnRowSelectedPage.tables
        (headerPos columnRowSelectedPage.tables 0) = some 0 ∧
    resolveWalk columnRowSelectedPage.tables 1 = none ∧
    toggle_table_expansion (fun _ => some []) columnRowSelectedPage =
      columnRowSelectedPage := by
  have h := c9_activation_resolution (fun _ => some []) columnRowSelectedPage 0
    { name := "t".toList, fields := some ["c1", "c2"], expanded := true } (by decide)
  exact ⟨h.1, (h.2.2 1 (by decide) (by decide)).1,
    (h.2.2 1 (by decide) (by decide)).2 rfl⟩

/-- The aggregation loop returns the error of the first failing
statement, whatever was accumulated so far. -/
theorem executeLoop_error (b : Backend) :
    ∀ (qs : List (List Char)) (k i : Nat) (allH : List String)
      (allR : List (List String)) (e : String),
      k < qs.length →
      (∀ j, j < k → (stmtResult b (qs.getD j [])).isOk = true) →
      stmtResult b (qs.getD k []) = .error e →
      executeLoop b qs i allH allR = .error e := by
  intro qs
  induction qs with
  | nil => intro k _ _ _ _ hk; exact absurd hk (by simp)
  | cons q qs ih =>
    intro k i allH allR e hk hpre hfail
    cases k with
    | zero =>
      have hq : stmtResult b q = .error e := by simpa using hfail
      rw [executeLoop, hq]
    | succ m =>
      have h0 : (stmtResult b q).isOk = true := by
        have := hpre 0 (Nat.succ_pos m)
        simpa using this
      rw [executeLoop]
      rcases hcase : stmtResult b q with e0 | v
      · rw [hcase] at h0
        exact absurd h0 (by simp [Except.isOk, Except.toBool])
      · rcases v with ⟨headers, rows⟩
        exact ih m (i + 1) _ _ e (by simpa using hk)
          (fun j hj => by
            have := hpre (j + 1) (by omega)
            simpa using this)
          (by simpa using hfail)

/-- C1: for a submission of more than one statement, if the statements
before index `k` succeed and statement `k` fails with error `e`, the call
returns exactly `Except.error e` — no grid, so the rows of the earlier
successful statements are discarded — and the outcome coincides for any
backend that agrees on statements `0..k`, i.e. the statements after the
failing one are never consulted. -/
theorem c1_execute_fails_fast (b : Backend) (text : List Char) (k : Nat)
    (e : String)
    (hlen : 1 < (splitQuery text).length)
    (hk : k < (splitQuery text).length)
    (hpre : ∀ j, j < k → (stmtResult b ((splitQuery text).getD j [])).isOk = true)
    (hfail : stmtResult b ((splitQuery text).getD k []) = .error e) :
    execute b text = .error e ∧
    ∀ b' : Backend,
      (∀ j, j ≤ k → stmtResult b' ((splitQuery text).getD j []) =
        stmtResult b ((splitQuery text).getD j [])) →
      execute b' text = .error e := by
  have hne : (splitQuery text).isEmpty = false := by
    cases hq : splitQuery text with
    | nil => rw [hq] at hlen; exact absurd hlen (by simp)
    | cons a l => simp
  constructor
  · rw [execute]
    simp only [hne, Bool.false_eq_true, if_false]
    exact executeLoop_error b (splitQuery text) k 0 [] [] e hk hpre hfail
  · intro b' hagree
    rw [execute]
    simp only [hne, Bool.false_eq_true, if_false]
    refine executeLoop_error b' (splitQuery text) k 0 [] [] e hk ?_ ?_
    · intro j hj
      rw [hagree j (Nat.le_of_lt hj)]
      exact hpre j hj
    · rw [hagree k (Nat.le_refl k)]
      exact hfail

/-- C1 witness: the fail-fast theorem applied to the two-statement
submission whose second (read) statement fails with `boom` under
`failingReadBackend`. -/
theorem c1_execute_fails_fast_witness :
    1 < (splitQuery updateThenSelect).length ∧
    execute failingReadBackend updateThenSelect = .error "boom" :=
  ⟨by decide,
    (c1_execute_fails_fast failingReadBackend updateThenSelect 1 "boom"
      (by decide) (by decide)
      (by
        intro j hj
        interval_cases j
        decide)
      (by rfl)).1⟩

/-- C5 counterexample: submitting a two-column read followed by a write
yields the adopted headers `["a", "b"]` (count 2) but a separator row of
a SINGLE `"---"` cell — the separator width is the CURRENT statement
header count (here the write statement's `["Result"]`), not the adopted
header count of the grid. -/
theorem c5_counterexample :
    execute twoColumnBackend selectThenUpdate =
      .ok (["a", "b"], [["1", "2"], ["---"], ["3 row(s) affected"]]) ∧
    (["---"] : List String).length ≠ (["a", "b"] : List String).length :=
  ⟨rfl, by decide⟩

/-- C5 amended: for every statement after the first, when prior output
rows exist, exactly one separator row is inserted before that statement
rows, all cells `"---"`, the cell count being THAT STATEMENT's own header
count with a minimum of one cell (not the adopted header count of the
grid). -/
theorem c5_separator_width (b : Backend) (q : List Char)
    (qs : List (List Char)) (i : Nat) (allH : List String)
    (allR : List (List String)) (h : List String) (r : List (List String))
    (hi : 0 < i) (hne : allR ≠ []) (hok : stmtResult b q = .ok (h, r)) :
    executeLoop b (q :: qs) i allH allR =
      executeLoop b qs (i + 1) (if allH.isEmpty then h else allH)
        (allR ++ [List.replicate (max h.length 1) "---"] ++ r) := by
  obtain ⟨x, xs, rfl⟩ := List.exists_cons_of_ne_nil hne
  obtain ⟨m, rfl⟩ := Nat.exists_eq_succ_of_ne_zero (Nat.pos_iff_ne_zero.mp hi)
  rw [executeLoop, hok]
  simp [List.append_assoc]

/-- C5 witness: the amended theorem applied to the write statement that
follows the two-column read of the C5 counterexample submission. -/
theorem c5_separator_width_witness :
    executeLoop twoColumnBackend ["UPDATE t SET x=1".toList] 1 ["a", "b"]
        [["1", "2"]] =
      executeLoop twoColumnBackend [] 2
        (if (["a", "b"] : List String).isEmpty then ["Result"] else ["a", "b"])
        ([["1", "2"]] ++
          [List.replicate (max (["Result"] : List String).length 1) "---"] ++
          [["3 row(s) affected"]]) :=
  c5_separator_width twoColumnBackend "UPDATE t SET x=1".toList [] 1
    ["a", "b"] [["1", "2"]] ["Result"] [["3 row(s) affected"]]
    (by decide) (by decide) rfl

/-- C2 counterexample: a write statement followed by a two-column read
aggregates into a grid with ONE adopted header (`Result`) but rows of
width 2 (the separator and the read rows), so not every row length
equals the header length. -/
theorem c2_counterexample :
    execute twoColumnBackend updateThenSelectTwo =
      .ok (["Result"], [["3 row(s) affected"], ["---", "---"], ["1", "2"]]) ∧
    ["---", "---"] ∈ [["3 row(s) affected"], ["---", "---"], ["1", "2"]] ∧
    (["---", "---"] : List String).length ≠ (["Result"] : List String).length :=
  ⟨rfl, by decide, by decide⟩

/-- C2 amended: the row-width invariant holds for every grid returned
from a SINGLE-statement submission (given the driver guarantee that all
rows of one fetched result set have the same column count); grids
aggregated from several statements can mix row widths whenever the
statements produce different column counts, as the counterexample
shows. -/
theorem c2_single_statement_row_width (b : Backend) (text q : List Char)
    (h : List String) (rs : List (List String))
    (hsplit : splitQuery text = [q])
    (huniform : ∀ rows, b.fetchAll q = .ok rows →
      ∀ r1 ∈ rows, ∀ r2 ∈ rows, List.length r1 = List.length r2)
    (hok : execute b text = .ok (h, rs)) :
    ∀ row ∈ rs, row.length = h.length := by
  rcases hcase : stmtResult b q with e | ⟨h0, r0⟩
  · rw [execute, hsplit] at hok
    simp only [List.isEmpty_cons, Bool.false_eq_true, if_false] at hok
    rw [executeLoop, hcase] at hok
    exact Except.noConfusion hok
  · rw [execute, hsplit] at hok
    simp only [List.isEmpty_cons, Bool.false_eq_true, if_false] at hok
    rw [executeLoop, hcase] at hok
    simp only [executeLoop] at hok
    have hpair : h0 = h ∧ r0 = rs := by
      simpa [Prod.ext_iff] using hok
    obtain ⟨rfl, rfl⟩ := hpair
    rw [stmtResult, executeStmt] at hcase
    cases hqt : isQueryType q with
    | false =>
      rw [hqt] at hcase
      simp only [Bool.not_false, if_true] at hcase
      rcases hw : b.execWrite q with e | n
      · rw [hw] at hcase
        exact Except.noConfusion hcase
      · rw [hw] at hcase
        have : (["Result"], [[toString n ++ " row(s) affected"]]) = (h0, r0) := by
          simpa using hcase
        obtain ⟨h1, h2⟩ := Prod.mk.injEq .. ▸ this
        rw [← h1, ← h2]
        intro row hrow
        simp at hrow
        subst hrow
        simp
    | true =>
      rw [hqt] at hcase
      simp only [Bool.not_true, Bool.false_eq_true, if_false] at hcase
      rcases hf : b.fetchAll q with e | rows
      · rw [hf] at hcase
        exact Except.noConfusion hcase
      · rw [hf] at hcase
        cases rows with
        | nil =>
          have : (([] : List String), ([] : List (List String))) = (h0, r0) := by
            simpa using hcase
          obtain ⟨h1, h2⟩ := Prod.mk.injEq .. ▸ this
          rw [← h2]
          intro row hrow
          exact absurd hrow (by simp)
        | cons rhead rtail =>
          have : (rhead.map Prod.fst,
              (rhead :: rtail).map (fun r => r.map Prod.snd)) = (h0, r0) := by
            simpa using hcase
          obtain ⟨h1, h2⟩ := Prod.mk.injEq .. ▸ this
          rw [← h1, ← h2]
          intro row hrow
          simp only [List.mem_map] at hrow
          obtain ⟨rr, hrr, rfl⟩ := hrow
          have := huniform (rhead :: rtail) hf rr hrr rhead (by simp)
          simp [this]

/-- C2 witness: the amended theorem applied to a single-statement write
submission. -/
theorem c2_single_statement_row_width_witness :
    splitQuery singleUpdate = ["UPDATE t SET x=1".toList] ∧
    List.length ["3 row(s) affected"] = (["Result"] : List String).length :=
  ⟨by decide,
    c2_single_statement_row_width writeOnlyBackend singleUpdate
      "UPDATE t SET x=1".toList ["Result"] [["3 row(s) affected"]]
      (by decide) (fun rows hrows => nomatch hrows) rfl
      ["3 row(s) affected"] (by simp)⟩

/-- When every statement succeeds, the headers the aggregation loop
returns are the accumulated ones if any, else the first non-empty header
set of the remaining statements in order. -/
theorem executeLoop_headers (b : Backend) :
    ∀ (qs : List (List Char)) (i : Nat) (allH : List String)
      (allR : List (List String)),
      (∀ q ∈ qs, (stmtResult b q).isOk = true) →
      ∃ R, executeLoop b qs i allH allR =
        .ok (if allH.isEmpty then
            firstNonEmptyHeaders (qs.map (stmtHeaders b))
          else allH, R) := by
  intro qs
  induction qs with
  | nil =>
    intro i allH allR _
    refine ⟨allR, ?_⟩
    rw [executeLoop]
    cases allH <;> simp [firstNonEmptyHeaders]
  | cons q qs ih =>
    intro i allH allR hall
    have h0 : (stmtResult b q).isOk = true := hall q (by simp)
    rcases hq : stmtResult b q with e | ⟨h1, r1⟩
    · rw [hq] at h0
      exact absurd h0 (by simp [Except.isOk, Except.toBool])
    · have hhd : stmtHeaders b q = h1 := by rw [stmtHeaders, hq]
      have hstep : executeLoop b (q :: qs) i allH allR =
          executeLoop b qs (i + 1) (if allH.isEmpty then h1 else allH)
            ((if i > 0 && !allR.isEmpty then
                allR ++ [List.replicate (max h1.length 1) "---"]
              else allR) ++ r1) := by
        rw [executeLoop, hq]
      obtain ⟨R, hR⟩ := ih (i + 1) (if allH.isEmpty then h1 else allH)
        (((if i > 0 && !allR.isEmpty then
            allR ++ [List.replicate (max h1.length 1) "---"]
          else allR)) ++ r1)
        (fun p hp => hall p (by simp [hp]))
      refine ⟨R, ?_⟩
      rw [hstep, hR]
      congr 1
      rw [List.map_cons, hhd]
      cases hAH : allH with
      | nil =>
        cases hh1 : h1 with
        | nil => simp [firstNonEmptyHeaders]
        | cons a l => simp [firstNonEmptyHeaders]
      | cons a l => simp [firstNonEmptyHeaders]

/-- C4: when every statement of a submission succeeds, the returned grid
headers are the first non-empty per-statement header set in statement
order (later header sets are discarded); a write statement contributes
headers `["Result"]` and the single row `"<n> row(s) affected"`; and the
scenario `UPDATE` (3 rows affected) followed by `SELECT 1` yields headers
`["Result"]`, the row `["3 row(s) affected"]`, a separator row, then the
SELECT row. -/
theorem c4_headers_first_nonempty (b : Backend) (text : List Char)
    (hall : ∀ q ∈ splitQuery text, (stmtResult b q).isOk = true) :
    (∃ R, execute b text =
      .ok (firstNonEmptyHeaders ((splitQuery text).map (stmtHeaders b)), R)) ∧
    (∀ (q : List Char) (n : Nat), isQueryType q = false →
      b.execWrite q = .ok n →
      stmtResult b q = .ok (["Result"], [[toString n ++ " row(s) affected"]])) ∧
    execute scenarioBackend updateThenSelect =
      .ok (["Result"], [["3 row(s) affected"], ["---"], ["1"]]) := by
  refine ⟨?_, ?_, rfl⟩
  · cases hq : splitQuery text with
    | nil =>
      refine ⟨[], ?_⟩
      rw [execute, hq]
      simp [firstNonEmptyHeaders]
    | cons p ps =>
      rw [execute, hq]
      simp only [List.isEmpty_cons, Bool.false_eq_true, if_false]
      have := executeLoop_headers b (p :: ps) 0 [] []
        (fun x hx => hall x (hq ▸ hx))
      simpa using this
  · intro q n h1 h2
    rw [stmtResult, executeStmt, h1]
    simp [h2]

/-- C4 witness: the theorem applied to the scenario backend and the
two-statement scenario submission. -/
theorem c4_headers_first_nonempty_witness :
    execute scenarioBackend updateThenSelect =
      .ok (firstNonEmptyHeaders
          ((splitQuery updateThenSelect).map (stmtHeaders scenarioBackend)),
        [["3 row(s) affected"], ["---"], ["1"]]) :=
  (c4_headers_first_nonempty scenarioBackend updateThenSelect (by
    intro q hq
    fin_cases hq <;> rfl)).2.2

end RsQuid
